import Mathlib

/-!
Verification development for the `origin-data-infra` repository: a shallow
embedding of `scripts/migrate_sheets_to_supabase.py` (Normalizer helpers and
the three Forward Migrator pipelines) and `scripts/sync_to_sheets.py`
(Reconciliation Sync), with theorems settling the specification claims.

Modelling conventions:
- Spreadsheet cell values are `Option String` (a missing key in the row map is
  `none`; an empty cell is `some ""`), except the `Txn Count` cell, which the
  source treats as `str | int` and is modelled as `Option (String ⊕ Int)`.
- Monetary amounts are `Rat` (Python floats carry exact decimal literals at
  the magnitudes involved here).
- Persistence calls (`insert` / `upsert` / `batch_update`) either succeed or
  raise; a run is parameterised by an oracle giving each call's outcome.
- Python truthiness of a string is emptiness; `x or y` on strings/None is
  modelled by the `pyOr*` helpers below.
-/

/-- Python `str.strip()` restricted to ASCII whitespace: drop leading and
trailing whitespace characters. -/
def pyStrip (s : String) : String :=
  String.mk (((s.toList.dropWhile Char.isWhitespace).reverse.dropWhile Char.isWhitespace).reverse)

/-- ASCII-only model of Python `str.lower()` (the strings inspected by the
source are ASCII error messages). -/
def lowerStr (s : String) : String :=
  String.mk (s.toList.map Char.toLower)

/-- Python `pat in s` substring membership test. -/
def strContains (s pat : String) : Bool :=
  s.toList.tails.any (fun t => pat.toList.isPrefixOf t)

/-- Python `cell or None` where `cell` is an optional string: an absent or
empty (falsy) string becomes `None`, anything else passes through. -/
def pyOrNone (c : Option String) : Option String :=
  match c with
  | none => none
  | some v => if v = "" then none else some v

/-- Python `row.get(k, d) or d` where the `get` default equals the `or`
default: absent or empty cell yields `d`. -/
def pyOrDefault (c : Option String) (d : String) : String :=
  match c with
  | none => d
  | some v => if v = "" then d else v

/-- Numeric value of a list of ASCII digits, most significant first. -/
def digitsVal (l : List Char) : Nat :=
  l.foldl (fun a c => a * 10 + (c.toNat - 48)) 0

/-- Modelled fragment of Python `float(s)`: optional sign, then digits with an
optional fractional part (at least one digit overall), the whole string
consumed. Exponents, `inf`/`nan`, surrounding whitespace and underscore
separators — none of which the migration data exercises — are outside the
modelled fragment and rejected. -/
def pyFloat? (s : String) : Option Rat :=
  let cs := s.toList
  let signAndRest : Int × List Char :=
    match cs with
    | '-' :: r => (-1, r)
    | '+' :: r => (1, r)
    | _ => (1, cs)
  let sign := signAndRest.1
  let body := signAndRest.2
  let ip := body.takeWhile Char.isDigit
  let rest := body.dropWhile Char.isDigit
  match rest with
  | [] => if ip = [] then none else some (mkRat (sign * (digitsVal ip : Int)) 1)
  | '.' :: fr =>
    let fp := fr.takeWhile Char.isDigit
    let rest2 := fr.dropWhile Char.isDigit
    if rest2 = [] ∧ (ip ≠ [] ∨ fp ≠ []) then
      some (mkRat (sign * ((digitsVal ip : Int) * (10 : Int) ^ fp.length + (digitsVal fp : Int)))
        ((10 : Nat) ^ fp.length))
    else none
  | _ => none

/-- `parse_amount` from `migrate_sheets_to_supabase.py`: empty input is falsy
and yields `0.0`; otherwise `$` and `,` are removed (`re.sub(r"[$,]", "", s)`)
and the remainder is passed to `float`, with `ValueError` mapped to `0.0`. -/
def parse_amount (s : String) : Rat :=
  if s = "" then 0
  else
    let cleaned := String.mk (s.toList.filter (fun c => ¬(c = '$' ∨ c = ',')))
    (pyFloat? cleaned).getD 0

/-- `parse_txn_count` from `migrate_sheets_to_supabase.py`. The argument is
`str | int`; a falsy argument (empty string or integer `0`) yields `0`, an
integer is returned unchanged, and a string is stripped of every non-digit
character (`re.sub(r"[^\d]", "", s)`, ASCII digits here) and read as a number,
with the empty remainder yielding `0`. -/
def parse_txn_count (x : String ⊕ Int) : Int :=
  let falsy : Bool :=
    match x with
    | Sum.inl s => s = ""
    | Sum.inr n => n = 0
  if falsy then 0
  else
    match x with
    | Sum.inr n => n
    | Sum.inl s =>
      let cleaned := s.toList.filter Char.isDigit
      if cleaned = [] then 0 else (digitsVal cleaned : Int)

/-- Expect one literal character at the head of the input. -/
def expectChar (c : Char) : List Char → Option (List Char)
  | [] => none
  | x :: r => if x = c then some r else none

/-- The `%m` directive of CPython `strptime`: the regex alternation
`1[0-2] | 0[1-9] | [1-9]`, returned as the ordered list of candidate
`(value, rest)` parses (alternation order = backtracking preference). -/
def monthAlts (cs : List Char) : List (Nat × List Char) :=
  (match cs with
   | '1' :: c :: rest =>
     if c = '0' ∨ c = '1' ∨ c = '2' then [(10 + (c.toNat - 48), rest)] else []
   | _ => []) ++
  (match cs with
   | '0' :: c :: rest =>
     if '1' ≤ c ∧ c ≤ '9' then [(c.toNat - 48, rest)] else []
   | _ => []) ++
  (match cs with
   | c :: rest =>
     if '1' ≤ c ∧ c ≤ '9' then [(c.toNat - 48, rest)] else []
   | _ => [])

/-- The `%d` directive of CPython `strptime`: the regex alternation
`3[01] | [12]\d | 0[1-9] | [1-9] | space[1-9]`, as ordered candidates. -/
def dayAlts (cs : List Char) : List (Nat × List Char) :=
  (match cs with
   | '3' :: c :: rest =>
     if c = '0' ∨ c = '1' then [(30 + (c.toNat - 48), rest)] else []
   | _ => []) ++
  (match cs with
   | c :: d :: rest =>
     if (c = '1' ∨ c = '2') ∧ d.isDigit then [((c.toNat - 48) * 10 + (d.toNat - 48), rest)] else []
   | _ => []) ++
  (match cs with
   | '0' :: c :: rest =>
     if '1' ≤ c ∧ c ≤ '9' then [(c.toNat - 48, rest)] else []
   | _ => []) ++
  (match cs with
   | c :: rest =>
     if '1' ≤ c ∧ c ≤ '9' then [(c.toNat - 48, rest)] else []
   | _ => []) ++
  (match cs with
   | ' ' :: c :: rest =>
     if '1' ≤ c ∧ c ≤ '9' then [(c.toNat - 48, rest)] else []
   | _ => [])

/-- The `%Y` directive: exactly four ASCII digits. -/
def year4 (cs : List Char) : List (Nat × List Char) :=
  match cs with
  | a :: b :: c :: d :: rest =>
    if a.isDigit ∧ b.isDigit ∧ c.isDigit ∧ d.isDigit then
      [(digitsVal [a, b, c, d], rest)]
    else []
  | _ => []

/-- The `%y` directive: exactly two ASCII digits, mapped by CPython to
2000–2068 (value ≤ 68) or 1969–1999 (value ≥ 69). -/
def year2 (cs : List Char) : List (Nat × List Char) :=
  match cs with
  | a :: b :: rest =>
    if a.isDigit ∧ b.isDigit then
      let v := digitsVal [a, b]
      [(if v ≤ 68 then 2000 + v else 1900 + v, rest)]
    else []
  | _ => []

/-- Gregorian leap-year test, as in Python's `datetime`. -/
def isLeap (y : Nat) : Bool :=
  y % 4 = 0 ∧ (y % 100 ≠ 0 ∨ y % 400 = 0)

/-- Days in a month (month assumed 1–12), as in Python's `datetime`. -/
def daysInMonth (y m : Nat) : Nat :=
  if m = 2 then (if isLeap y then 29 else 28)
  else if m = 4 ∨ m = 6 ∨ m = 9 ∨ m = 11 then 30
  else 31

/-- The validation performed by the `datetime` constructor after the regex
match: year in 1–9999, month 1–12, day within the month. A failure raises
`ValueError`, which `parse_date` treats like a format mismatch. -/
def checkDate (t : Nat × Nat × Nat) : Option (Nat × Nat × Nat) :=
  if 1 ≤ t.1 ∧ t.1 ≤ 9999 ∧ 1 ≤ t.2.1 ∧ t.2.1 ≤ 12 ∧ 1 ≤ t.2.2 ∧ t.2.2 ≤ daysInMonth t.1 t.2.1 then
    some t
  else none

/-- `strptime(s, "%Y-%m-%d")` on a fully-consumed input, followed by the
`datetime` constructor validation; yields `(year, month, day)`. -/
def strptimeISO (cs : List Char) : Option (Nat × Nat × Nat) :=
  ((year4 cs).findSome? (fun yr =>
    (expectChar '-' yr.2).bind (fun r1 =>
      (monthAlts r1).findSome? (fun mr =>
        (expectChar '-' mr.2).bind (fun r2 =>
          (dayAlts r2).findSome? (fun dr =>
            if dr.2 = [] then some (yr.1, mr.1, dr.1) else none)))))).bind checkDate

/-- `strptime(s, "%m/%d/%Y")` on a fully-consumed input, validated. -/
def strptimeMDY4 (cs : List Char) : Option (Nat × Nat × Nat) :=
  ((monthAlts cs).findSome? (fun mr =>
    (expectChar '/' mr.2).bind (fun r1 =>
      (dayAlts r1).findSome? (fun dr =>
        (expectChar '/' dr.2).bind (fun r2 =>
          (year4 r2).findSome? (fun yr =>
            if yr.2 = [] then some (yr.1, mr.1, dr.1) else none)))))).bind checkDate

/-- `strptime(s, "%m/%d/%y")` on a fully-consumed input, validated. -/
def strptimeMDY2 (cs : List Char) : Option (Nat × Nat × Nat) :=
  ((monthAlts cs).findSome? (fun mr =>
    (expectChar '/' mr.2).bind (fun r1 =>
      (dayAlts r1).findSome? (fun dr =>
        (expectChar '/' dr.2).bind (fun r2 =>
          (year2 r2).findSome? (fun yr =>
            if yr.2 = [] then some (yr.1, mr.1, dr.1) else none)))))).bind checkDate

/-- Zero-pad a numeral to two digits, as `strftime("%m")` / `%d` do. -/
def pad2 (n : Nat) : String :=
  if n < 10 then "0" ++ toString n else toString n

/-- Zero-pad a numeral to four digits, as `strftime("%Y")` renders the
(1000–9999) years reachable through the formats above. -/
def pad4 (n : Nat) : String :=
  if n < 10 then "000" ++ toString n
  else if n < 100 then "00" ++ toString n
  else if n < 1000 then "0" ++ toString n
  else toString n

/-- `strftime("%Y-%m-%d")` on a parsed date. -/
def renderISO (t : Nat × Nat × Nat) : String :=
  pad4 t.1 ++ "-" ++ pad2 t.2.1 ++ "-" ++ pad2 t.2.2

/-- `parse_date` from `migrate_sheets_to_supabase.py`: empty input is falsy
and yields `None`; otherwise the formats `%Y-%m-%d`, `%m/%d/%Y`, `%m/%d/%y`
are tried in order, a `ValueError` (mismatch or invalid calendar date) moving
on to the next format; the first success is re-rendered as ISO, and exhaustion
yields `None`. -/
def parse_date (s : String) : Option String :=
  if s = "" then none
  else
    match strptimeISO s.toList with
    | some t => some (renderISO t)
    | none =>
      match strptimeMDY4 s.toList with
      | some t => some (renderISO t)
      | none =>
        match strptimeMDY2 s.toList with
        | some t => some (renderISO t)
        | none => none

/-- A persisted `transactions` row as seen by `sync_to_sheets.py`: only the
columns it selects (`id, sheets_row_id, status, qb_account`) plus the
`sheets_synced_at` column its filters and update touch. -/
structure TxnRow where
  id : Nat
  sheets_row_id : Option Nat
  status : Option String
  qb_account : Option String
  sheets_synced_at : Option String
deriving DecidableEq

/-- The dirty-row query of `sync_to_sheets`:
`select(...).is_("sheets_synced_at","null").not_.is_("sheets_row_id","null").limit(100)`. -/
def selectDirty (db : List TxnRow) : List TxnRow :=
  (db.filter (fun r => r.sheets_synced_at.isNone && r.sheets_row_id.isSome)).take 100

/-- One queued single-cell write (`{"range": ..., "values": [[...]]}`). -/
structure CellUpdate where
  range : String
  value : String
deriving DecidableEq

/-- The update queue built by `sync_to_sheets`: for each dirty row, a write of
`status or ""` to column A and of `qb_account or ""` to column F at the
stored spreadsheet row index. -/
def buildUpdates (rows : List TxnRow) : List CellUpdate :=
  rows.flatMap (fun r =>
    [⟨"A" ++ toString (r.sheets_row_id.getD 0), r.status.getD ""⟩,
     ⟨"F" ++ toString (r.sheets_row_id.getD 0), r.qb_account.getD ""⟩])

/-- The stamping step of `sync_to_sheets`:
`update({"sheets_synced_at": now}).in_("id", synced_ids)`. -/
def markSynced (db : List TxnRow) (ids : List Nat) (now : String) : List TxnRow :=
  db.map (fun r => if ids.contains r.id then { r with sheets_synced_at := some now } else r)

/-- Outcome of one `sync_to_sheets` invocation: the database afterwards, the
cell writes performed, and the Python return value (`none` when the batched
`batch_update` raised and the exception propagated). -/
structure SyncResult where
  db : List TxnRow
  writes : List CellUpdate
  ret : Option Nat
deriving DecidableEq

/-- `sync_to_sheets` from `sync_to_sheets.py`, parameterised by whether the
batched spreadsheet write succeeds (`writeOk`) and by the current timestamp.
An empty dirty selection returns 0 having touched nothing; otherwise the
queued updates are written in one `batch_update` call, and only after that
call returns are the selected ids stamped with `sheets_synced_at = now`. A
failing `batch_update` propagates before any stamping. -/
def sync_to_sheets (db : List TxnRow) (writeOk : Bool) (now : String) : SyncResult :=
  let dirty := selectDirty db
  if dirty.isEmpty then ⟨db, [], some 0⟩
  else
    let updates := buildUpdates dirty
    if writeOk then
      let ids := dirty.map (fun r => r.id)
      ⟨markSynced db ids now, updates, some ids.length⟩
    else ⟨db, [], none⟩

/-- A `Merchant Rules` sheet row, keyed by the headers the source reads. -/
structure RuleRow where
  merchant : Option String
  currentEntity : Option String
  originQBO : Option String
  openhaulQBO : Option String
  notes : Option String
  txnCount : Option (String ⊕ Int)

/-- The record upserted into `merchant_rules`. -/
structure MerchantRuleData where
  merchant : String
  entity_default : String
  origin_qb_account : Option String
  openhaul_qb_account : Option String
  notes : Option String
  txn_count : Int
  sheets_row_id : Nat
  sheets_synced_at : String
deriving DecidableEq

/-- The `data` dict built by `migrate_merchant_rules` for sheet row `i`
(only reached when the stripped merchant is non-blank). -/
def buildRuleData (i : Nat) (now : String) (row : RuleRow) : MerchantRuleData :=
  { merchant := pyStrip (row.merchant.getD "")
    entity_default := pyOrDefault row.currentEntity "NEEDS REVIEW"
    origin_qb_account := pyOrNone row.originQBO
    openhaul_qb_account := pyOrNone row.openhaulQBO
    notes := pyOrNone row.notes
    txn_count := parse_txn_count (row.txnCount.getD (Sum.inr 0))
    sheets_row_id := i
    sheets_synced_at := now }

/-- `upsert(data, on_conflict="merchant")`: replace the row with the same
merchant key, else append. -/
def upsertRule (l : List MerchantRuleData) (d : MerchantRuleData) : List MerchantRuleData :=
  if l.any (fun r => r.merchant = d.merchant) then
    l.map (fun r => if r.merchant = d.merchant then d else r)
  else l ++ [d]

/-- Running counters of a migration loop, the rows persisted so far, and the
error messages printed so far. -/
structure MigState (α : Type) where
  migrated : Nat
  errors : Nat
  persisted : List α
  printed : List String
deriving DecidableEq

/-- One iteration of the `migrate_merchant_rules` loop on sheet row `i`.
A blank (stripped-empty) merchant is skipped outright; otherwise the upsert
either succeeds (`fail i = none`) or raises with message `e`, in which case
the error counter is bumped and only the first five messages are printed. -/
def ruleStep (now : String) (fail : Nat → Option String) (s : MigState MerchantRuleData)
    (i : Nat) (row : RuleRow) : MigState MerchantRuleData :=
  let merchant := pyStrip (row.merchant.getD "")
  if merchant = "" then s
  else
    let data := buildRuleData i now row
    match fail i with
    | none => { s with persisted := upsertRule s.persisted data, migrated := s.migrated + 1 }
    | some e =>
      let errors := s.errors + 1
      { s with errors := errors
               printed := if errors ≤ 5 then s.printed ++ [e] else s.printed }

/-- `enumerate(records, start=n)`. -/
def enumFrom (n : Nat) : List α → List (Nat × α)
  | [] => []
  | x :: xs => (n, x) :: enumFrom (n + 1) xs

/-- `migrate_merchant_rules` over the fetched rows (header row is sheet row 1,
so enumeration starts at 2), with `fail` giving each upsert's outcome. -/
def migrate_merchant_rules (rows : List RuleRow) (now : String)
    (fail : Nat → Option String) : MigState MerchantRuleData :=
  (enumFrom 2 rows).foldl (fun s p => ruleStep now fail s p.1 p.2) ⟨0, 0, [], []⟩

/-- A `Merchant Alias` sheet row. -/
structure AliasRow where
  rawMerchant : Option String
  stdMerchant : Option String
  source : Option String
  notes : Option String

/-- The record inserted into `merchant_aliases`. -/
structure MerchantAliasData where
  raw_merchant : String
  std_merchant : String
  source : Option String
  notes : Option String
deriving DecidableEq

/-- The `data` dict built by `migrate_merchant_aliases`. -/
def buildAliasData (row : AliasRow) : MerchantAliasData :=
  { raw_merchant := pyStrip (row.rawMerchant.getD "")
    std_merchant := pyStrip (row.stdMerchant.getD "")
    source := pyOrNone row.source
    notes := pyOrNone row.notes }

/-- One iteration of the `migrate_merchant_aliases` loop (`idx` is the
0-based position indexing the insert outcome oracle). A blank raw or
standardized merchant is skipped; on an insert exception whose message
contains "duplicate" case-insensitively the row is silently skipped, and any
other exception bumps the error counter (first five messages printed). -/
def aliasStep (fail : Nat → Option String) (s : MigState MerchantAliasData)
    (idx : Nat) (row : AliasRow) : MigState MerchantAliasData :=
  let raw := pyStrip (row.rawMerchant.getD "")
  let std := pyStrip (row.stdMerchant.getD "")
  if raw = "" ∨ std = "" then s
  else
    let data := buildAliasData row
    match fail idx with
    | none => { s with persisted := s.persisted ++ [data], migrated := s.migrated + 1 }
    | some e =>
      if strContains (lowerStr e) "duplicate" then s
      else
        let errors := s.errors + 1
        { s with errors := errors
                 printed := if errors ≤ 5 then s.printed ++ [e] else s.printed }

/-- `migrate_merchant_aliases` over the fetched rows, with `fail` giving each
insert's outcome by row position. -/
def migrate_merchant_aliases (rows : List AliasRow)
    (fail : Nat → Option String) : MigState MerchantAliasData :=
  (enumFrom 0 rows).foldl (fun s p => aliasStep fail s p.1 p.2) ⟨0, 0, [], []⟩

/-- An `All Transactions` sheet row. -/
structure TxnSheetRow where
  date : Option String
  rawMerchant : Option String
  stdMerchant : Option String
  amount : Option String
  entity : Option String
  qbAccount : Option String
  status : Option String
  accountUsed : Option String
  cardNumber : Option String
  notes : Option String

/-- The record inserted into `transactions`. -/
structure TransactionData where
  date : String
  raw_merchant : Option String
  merchant : Option String
  amount : Rat
  entity : String
  qb_account : Option String
  status : String
  source_account : Option String
  card_number : Option String
  notes : Option String
  sheets_row_id : Nat
  sheets_synced_at : String
deriving DecidableEq

/-- The `data` dict built by `migrate_transactions` for sheet row `i`, given
the already-parsed date (only reached when `parse_date` succeeded). -/
def buildTxnData (i : Nat) (now : String) (row : TxnSheetRow) (date : String) : TransactionData :=
  { date := date
    raw_merchant := pyOrNone row.rawMerchant
    merchant :=
      match pyOrNone row.stdMerchant with
      | some v => some v
      | none => pyOrNone row.rawMerchant
    amount := parse_amount (row.amount.getD "0")
    entity := pyOrDefault row.entity "NEEDS REVIEW"
    qb_account := pyOrNone row.qbAccount
    status := pyOrDefault row.status "⚠️"
    source_account := pyOrNone row.accountUsed
    card_number :=
      let card := row.cardNumber.getD ""
      if card = "" then none else some card
    notes := pyOrNone row.notes
    sheets_row_id := i
    sheets_synced_at := now }

/-- State of the `migrate_transactions` loop: counters, the pending batch
buffer, how many batch inserts have been attempted (indexing the outcome
oracle), the rows persisted by successful batches, and printed messages. -/
structure TxnMigState where
  migrated : Nat
  errors : Nat
  batch : List TransactionData
  batchNo : Nat
  persisted : List TransactionData
  printed : List String
deriving DecidableEq

/-- Flush the batch through one `insert(batch).execute()` call: on success the
whole batch is persisted and counted migrated; on an exception the whole
batch is counted as errors and the message printed (batch errors are printed
unconditionally). The buffer is emptied either way. -/
def flushBatch (batchFail : Nat → Option String) (s : TxnMigState) : TxnMigState :=
  match batchFail s.batchNo with
  | none =>
    { s with migrated := s.migrated + s.batch.length
             persisted := s.persisted ++ s.batch
             batch := []
             batchNo := s.batchNo + 1 }
  | some e =>
    { s with errors := s.errors + s.batch.length
             printed := s.printed ++ [e]
             batch := []
             batchNo := s.batchNo + 1 }

/-- One iteration of the `migrate_transactions` loop on sheet row `i`: a row
whose date does not parse is skipped; otherwise the record is appended to the
batch buffer, which is flushed once it reaches `batch_size = 100`. -/
def txnStep (now : String) (batchFail : Nat → Option String) (s : TxnMigState)
    (i : Nat) (row : TxnSheetRow) : TxnMigState :=
  match parse_date (row.date.getD "") with
  | none => s
  | some date =>
    let data := buildTxnData i now row date
    let s := { s with batch := s.batch ++ [data] }
    if s.batch.length ≥ 100 then flushBatch batchFail s else s

/-- `migrate_transactions` over the fetched rows (enumerated from sheet row
2), with `batchFail` giving the outcome of each batch insert in attempt
order; a non-empty remainder batch is flushed after the loop. -/
def migrate_transactions (rows : List TxnSheetRow) (now : String)
    (batchFail : Nat → Option String) : TxnMigState :=
  let s := (enumFrom 2 rows).foldl (fun s p => txnStep now batchFail s p.1 p.2) ⟨0, 0, [], 0, [], []⟩
  if s.batch.isEmpty then s else flushBatch batchFail s

/-- The shape in which a migrated transaction record lands in the
`transactions` table, restricted to the columns `sync_to_sheets` looks at:
every column the Migrator stamps is present (non-null). -/
def txnDataToRow (id : Nat) (d : TransactionData) : TxnRow :=
  { id := id
    sheets_row_id := some d.sheets_row_id
    status := some d.status
    qb_account := d.qb_account
    sheets_synced_at := some d.sheets_synced_at }

/-- The batch-failure scenario's input row: a valid date, everything else
absent. -/
def c7row : TxnSheetRow :=
  ⟨some "2024-01-05", none, none, none, none, none, none, none, none, none⟩

/-- The record the Migrator builds from `c7row` at sheet row `i`. -/
def c7data (i : Nat) : TransactionData :=
  buildTxnData i "NOW" c7row "2024-01-05"

/-- The batch insert outcome oracle of the scenario: the second attempt
(0-based attempt 1) raises, every other attempt succeeds. -/
def c7fail (n : Nat) : Option String :=
  if n = 1 then some "batch failed" else none

/-- Run of `migrate_transactions` on 250 copies of `c7row` with the second
batch insert failing. -/
def c7result : TxnMigState :=
  migrate_transactions (List.replicate 250 c7row) "NOW" c7fail

/-- The end-to-end scenario's input row:
`{date:"03/14/2024", Amount:"-$50.00", Status:absent}`. -/
def c9row : TxnSheetRow :=
  ⟨some "03/14/2024", none, none, some "-$50.00", none, none, none, none, none, none⟩

/-- The record the Migrator builds from `c9row` (sheet row 2, load time
`"NOW"`). -/
def c9data : TransactionData :=
  buildTxnData 2 "NOW" c9row "2024-03-14"

example : parse_date "2024-01-05" = some "2024-01-05" := by decide
example : parse_date "01/05/2024" = some "2024-01-05" := by decide
example : parse_date "01/05/24" = some "2024-01-05" := by decide
example : parse_date "" = none := by decide
example : parse_date "garbage" = none := by decide
example : parse_date "03/14/2024" = some "2024-03-14" := by decide
example : parse_date "02/29/2023" = none := by decide
example : parse_amount "-$1,234.56" = mkRat (-123456) 100 := by decide
example : mkRat (-123456) 100 = -1234.56 := by rw [Rat.mkRat_eq_div]; norm_num
example : parse_amount "" = 0 := by decide
example : parse_amount "abc" = 0 := by decide
example : parse_txn_count (Sum.inl "100+") = 100 := by decide
example : parse_txn_count (Sum.inr 42) = 42 := by decide
example : parse_txn_count (Sum.inl "") = 0 := by decide
example : parse_txn_count (Sum.inl "N/A") = 0 := by decide

theorem checkDate_some {t t2 : Nat × Nat × Nat} (h : checkDate t = some t2) :
    t2 = t ∧ 1 ≤ t.2.1 ∧ t.2.1 ≤ 12 ∧ 1 ≤ t.2.2 ∧ t.2.2 ≤ daysInMonth t.1 t.2.1 := by
  unfold checkDate at h
  split at h
  · rename_i hb
    exact ⟨(Option.some.injEq _ _ ▸ h).symm, hb.2.2.1, hb.2.2.2.1, hb.2.2.2.2.1, hb.2.2.2.2.2⟩
  · exact absurd h (by simp)

theorem bind_checkDate_bounds (g : Option (Nat × Nat × Nat)) {t : Nat × Nat × Nat}
    (h : g.bind checkDate = some t) :
    1 ≤ t.2.1 ∧ t.2.1 ≤ 12 ∧ 1 ≤ t.2.2 ∧ t.2.2 ≤ daysInMonth t.1 t.2.1 := by
  rcases Option.bind_eq_some.mp h with ⟨t0, -, hc⟩
  rcases checkDate_some hc with ⟨rfl, h1, h2, h3, h4⟩
  exact ⟨h1, h2, h3, h4⟩

theorem strptimeISO_bounds {cs : List Char} {t : Nat × Nat × Nat}
    (h : strptimeISO cs = some t) :
    1 ≤ t.2.1 ∧ t.2.1 ≤ 12 ∧ 1 ≤ t.2.2 ∧ t.2.2 ≤ daysInMonth t.1 t.2.1 := by
  unfold strptimeISO at h
  exact bind_checkDate_bounds _ h

theorem strptimeMDY4_bounds {cs : List Char} {t : Nat × Nat × Nat}
    (h : strptimeMDY4 cs = some t) :
    1 ≤ t.2.1 ∧ t.2.1 ≤ 12 ∧ 1 ≤ t.2.2 ∧ t.2.2 ≤ daysInMonth t.1 t.2.1 := by
  unfold strptimeMDY4 at h
  exact bind_checkDate_bounds _ h

theorem strptimeMDY2_bounds {cs : List Char} {t : Nat × Nat × Nat}
    (h : strptimeMDY2 cs = some t) :
    1 ≤ t.2.1 ∧ t.2.1 ≤ 12 ∧ 1 ≤ t.2.2 ∧ t.2.2 ≤ daysInMonth t.1 t.2.1 := by
  unfold strptimeMDY2 at h
  exact bind_checkDate_bounds _ h

/-- `C3`: `parse_date` tries ISO `YYYY-MM-DD`, then `MM/DD/YYYY`, then
`MM/DD/YY`, returning the first match rendered in ISO form, and `none` on
empty or unmatched input; in particular the spec's five examples hold, and
every non-`none` result is the ISO rendering of a calendar-valid date. -/
theorem claim_C3_parse_date_formats :
    parse_date "2024-01-05" = some "2024-01-05" ∧
    parse_date "01/05/2024" = some "2024-01-05" ∧
    parse_date "01/05/24" = some "2024-01-05" ∧
    parse_date "" = none ∧
    parse_date "garbage" = none ∧
    ∀ s, parse_date s = none ∨
      ∃ y m d, parse_date s = some (renderISO (y, m, d)) ∧
        1 ≤ m ∧ m ≤ 12 ∧ 1 ≤ d ∧ d ≤ daysInMonth y m := by
  refine ⟨by decide, by decide, by decide, by decide, by decide, ?_⟩
  intro s
  by_cases hs : s = ""
  · left
    simp [parse_date, hs]
  · unfold parse_date
    rcases h1 : strptimeISO s.toList with - | t1
    · rcases h2 : strptimeMDY4 s.toList with - | t2
      · rcases h3 : strptimeMDY2 s.toList with - | t3
        · left
          simp [hs, h1, h2, h3]
        · right
          have hb := strptimeMDY2_bounds h3
          exact ⟨t3.1, t3.2.1, t3.2.2, by simp [hs, h1, h2, h3], hb.1, hb.2.1, hb.2.2.1, hb.2.2.2⟩
      · right
        have hb := strptimeMDY4_bounds h2
        exact ⟨t2.1, t2.2.1, t2.2.2, by simp [hs, h1, h2], hb.1, hb.2.1, hb.2.2.1, hb.2.2.2⟩
    · right
      have hb := strptimeISO_bounds h1
      exact ⟨t1.1, t1.2.1, t1.2.2, by simp [hs, h1], hb.1, hb.2.1, hb.2.2.1, hb.2.2.2⟩

/-- `C4`: `parse_amount` strips `$` and `,`, parses the remainder preserving a
leading minus sign, and yields `0.0` on empty input or an unparseable
remainder; it is a total function, and the spec's examples hold. -/
theorem claim_C4_parse_amount :
    parse_amount "" = 0 ∧
    parse_amount "abc" = 0 ∧
    parse_amount "-$1,234.56" = -1234.56 ∧
    parse_amount "$1,234.56" = 1234.56 := by
  have hneg : parse_amount "-$1,234.56" = mkRat (-123456) 100 := by decide
  have hpos : parse_amount "$1,234.56" = mkRat 123456 100 := by decide
  refine ⟨by decide, by decide, ?_, ?_⟩
  · rw [hneg, Rat.mkRat_eq_div]
    norm_num
  · rw [hpos, Rat.mkRat_eq_div]
    norm_num

/-- `C5`: `parse_txn_count` returns an integer argument unchanged, strips
every non-digit character from a string argument (empty remainder giving 0),
and the spec's examples hold. -/
theorem claim_C5_parse_txn_count :
    parse_txn_count (Sum.inl "100+") = 100 ∧
    (∀ n : Int, parse_txn_count (Sum.inr n) = n) ∧
    parse_txn_count (Sum.inl "") = 0 ∧
    parse_txn_count (Sum.inl "N/A") = 0 := by
  refine ⟨by decide, ?_, by decide, by decide⟩
  intro n
  by_cases h : n = 0 <;> simp [parse_txn_count, h]

theorem mem_selectDirty {db : List TxnRow} {r : TxnRow} (h : r ∈ selectDirty db) :
    r.sheets_synced_at = none ∧ r.sheets_row_id ≠ none := by
  unfold selectDirty at h
  have hf := List.take_subset 100 _ h
  rw [List.mem_filter] at hf
  have hp := hf.2
  simp only [Bool.and_eq_true, Option.isNone_iff_eq_none, Option.isSome_iff_ne_none] at hp
  exact ⟨hp.1, hp.2⟩

theorem synced_not_mem_selectDirty {db : List TxnRow} {r : TxnRow} {t : String}
    (h : r.sheets_synced_at = some t) : r ∉ selectDirty db := by
  intro hmem
  have := (mem_selectDirty hmem).1
  rw [h] at this
  exact Option.noConfusion this

/-- `C1`: an invocation of the Reconciliation Sync selects only records with
`sheets_synced_at` null and `sheets_row_id` non-null, at most 100 of them;
and after a successful cycle every record whose id was in the selection
carries a non-null `sheets_synced_at` and is excluded from the next
invocation's selection. -/
theorem claim_C1_reconciliation_selection : ∀ (db : List TxnRow) (now : String),
    (∀ r ∈ selectDirty db, r.sheets_synced_at = none ∧ r.sheets_row_id ≠ none) ∧
    (selectDirty db).length ≤ 100 ∧
    (∀ r ∈ (sync_to_sheets db true now).db,
      r.id ∈ (selectDirty db).map TxnRow.id →
      r.sheets_synced_at = some now ∧ r ∉ selectDirty ((sync_to_sheets db true now).db)) := by
  intro db now
  refine ⟨fun r hr => mem_selectDirty hr, ?_, ?_⟩
  · unfold selectDirty
    exact List.length_take_le 100 _
  · intro r hr hid
    rcases he : (selectDirty db).isEmpty with - | -
    · simp only [sync_to_sheets, he, Bool.false_eq_true, if_false, if_true] at hr ⊢
      unfold markSynced at hr
      rcases List.mem_map.mp hr with ⟨r0, -, hr0eq⟩
      by_cases hc : ((selectDirty db).map (fun r => r.id)).contains r0.id
      · rw [if_pos hc] at hr0eq
        have hsync : r.sheets_synced_at = some now := by
          rw [← hr0eq]
        refine ⟨hsync, synced_not_mem_selectDirty hsync⟩
      · rw [if_neg hc] at hr0eq
        subst hr0eq
        exfalso
        apply hc
        rw [List.contains_iff_exists_mem_beq]
        refine ⟨r0.id, ?_, by simp⟩
        simpa using hid
    · rcases List.mem_map.mp hid with ⟨r0, hr0, -⟩
      rw [List.isEmpty_iff.mp he] at hr0
      exact absurd hr0 (List.not_mem_nil r0)

/-- `C2`: when the batched spreadsheet write raises, the exception propagates
before any stamping: the database is unchanged (so the dirty selection of the
next invocation is the same), no cell write is recorded, and the invocation
has no return value. -/
theorem claim_C2_write_failure_no_stamping : ∀ (db : List TxnRow) (now : String),
    (sync_to_sheets db false now).db = db ∧
    selectDirty ((sync_to_sheets db false now).db) = selectDirty db ∧
    (selectDirty db ≠ [] →
      (sync_to_sheets db false now).ret = none ∧ (sync_to_sheets db false now).writes = []) := by
  intro db now
  rcases he : (selectDirty db).isEmpty with - | -
  · refine ⟨?_, ?_, fun hne => ⟨?_, ?_⟩⟩ <;>
      simp only [sync_to_sheets, he, Bool.false_eq_true, if_false]
  · refine ⟨?_, ?_, fun hne => absurd (List.isEmpty_iff.mp he) hne⟩ <;>
      simp only [sync_to_sheets, he, if_true]

/-- Witness for `C2` at a one-row dirty database. -/
theorem claim_C2_witness :
    (sync_to_sheets [⟨1, some 2, none, none, none⟩] false "T").db =
      [⟨1, some 2, none, none, none⟩] ∧
    (sync_to_sheets [⟨1, some 2, none, none, none⟩] false "T").ret = none :=
  ⟨(claim_C2_write_failure_no_stamping [⟨1, some 2, none, none, none⟩] "T").1,
   ((claim_C2_write_failure_no_stamping [⟨1, some 2, none, none, none⟩] "T").2.2
     (by decide)).1⟩

/-- Witness for `C1` at a one-row dirty database: the selected row is dirty,
and after the successful cycle its stamped copy is excluded. -/
theorem claim_C1_witness :
    ((⟨1, some 2, none, none, none⟩ : TxnRow).sheets_synced_at = none ∧
      (⟨1, some 2, none, none, none⟩ : TxnRow).sheets_row_id ≠ none) ∧
    ((⟨1, some 2, none, none, some "T"⟩ : TxnRow).sheets_synced_at = some "T" ∧
      (⟨1, some 2, none, none, some "T"⟩ : TxnRow) ∉
        selectDirty ((sync_to_sheets [⟨1, some 2, none, none, none⟩] true "T").db)) :=
  ⟨(claim_C1_reconciliation_selection [⟨1, some 2, none, none, none⟩] "T").1
      ⟨1, some 2, none, none, none⟩ (by decide),
   (claim_C1_reconciliation_selection [⟨1, some 2, none, none, none⟩] "T").2.2
      ⟨1, some 2, none, none, some "T"⟩ (by decide) (by decide)⟩

/-- `C6`: a row missing its identity — blank stripped merchant for the rules
sheet, blank raw or standardized merchant for the alias sheet, or an
unparseable/absent date for the transactions sheet — leaves the loop state
(counters, persisted rows, batch buffer, printed output) exactly unchanged:
no record, no error increment, no migrated increment. -/
theorem claim_C6_identity_skip :
    ∀ (now : String) (fail : Nat → Option String) (s1 : MigState MerchantRuleData) (i : Nat)
      (row : RuleRow) (s2 : MigState MerchantAliasData) (j : Nat) (arow : AliasRow)
      (bf : Nat → Option String) (s3 : TxnMigState) (k : Nat) (trow : TxnSheetRow),
    (pyStrip (row.merchant.getD "") = "" → ruleStep now fail s1 i row = s1) ∧
    (pyStrip (arow.rawMerchant.getD "") = "" ∨ pyStrip (arow.stdMerchant.getD "") = "" →
      aliasStep fail s2 j arow = s2) ∧
    (parse_date (trow.date.getD "") = none → txnStep now bf s3 k trow = s3) := by
  intro now fail s1 i row s2 j arow bf s3 k trow
  refine ⟨fun h => ?_, fun h => ?_, fun h => ?_⟩
  · simp [ruleStep, h]
  · rcases h with h | h <;> simp [aliasStep, h]
  · simp [txnStep, h]

/-- Witness for `C6`: a whitespace-only merchant, a blank raw merchant, and a
garbage date each leave the corresponding initial state unchanged. -/
theorem claim_C6_witness :
    ruleStep "T" (fun _ => none) ⟨0, 0, [], []⟩ 2 ⟨some "   ", none, none, none, none, none⟩ =
      ⟨0, 0, [], []⟩ ∧
    aliasStep (fun _ => none) ⟨0, 0, [], []⟩ 0 ⟨some "", some "X", none, none⟩ =
      ⟨0, 0, [], []⟩ ∧
    txnStep "T" (fun _ => none) ⟨0, 0, [], 0, [], []⟩ 2
      ⟨some "garbage", none, none, none, none, none, none, none, none, none⟩ =
      ⟨0, 0, [], 0, [], []⟩ :=
  ⟨(claim_C6_identity_skip "T" (fun _ => none) ⟨0, 0, [], []⟩ 2
      ⟨some "   ", none, none, none, none, none⟩ ⟨0, 0, [], []⟩ 0
      ⟨some "", some "X", none, none⟩ (fun _ => none) ⟨0, 0, [], 0, [], []⟩ 2
      ⟨some "garbage", none, none, none, none, none, none, none, none, none⟩).1 (by decide),
   (claim_C6_identity_skip "T" (fun _ => none) ⟨0, 0, [], []⟩ 2
      ⟨some "   ", none, none, none, none, none⟩ ⟨0, 0, [], []⟩ 0
      ⟨some "", some "X", none, none⟩ (fun _ => none) ⟨0, 0, [], 0, [], []⟩ 2
      ⟨some "garbage", none, none, none, none, none, none, none, none, none⟩).2.1
      (Or.inl (by decide)),
   (claim_C6_identity_skip "T" (fun _ => none) ⟨0, 0, [], []⟩ 2
      ⟨some "   ", none, none, none, none, none⟩ ⟨0, 0, [], []⟩ 0
      ⟨some "", some "X", none, none⟩ (fun _ => none) ⟨0, 0, [], 0, [], []⟩ 2
      ⟨some "garbage", none, none, none, none, none, none, none, none, none⟩).2.2 (by decide)⟩

/-- `C8`: when an alias insert raises, a message containing "duplicate"
case-insensitively leaves the state exactly unchanged (no error count, no
print); any other message bumps the error counter and persists nothing; the
migrated counter is untouched in both failure cases. -/
theorem claim_C8_duplicate_skip :
    ∀ (fail : Nat → Option String) (s : MigState MerchantAliasData) (idx : Nat)
      (row : AliasRow) (e : String),
    pyStrip (row.rawMerchant.getD "") ≠ "" →
    pyStrip (row.stdMerchant.getD "") ≠ "" →
    fail idx = some e →
    (strContains (lowerStr e) "duplicate" = true → aliasStep fail s idx row = s) ∧
    (strContains (lowerStr e) "duplicate" = false →
      (aliasStep fail s idx row).errors = s.errors + 1 ∧
      (aliasStep fail s idx row).persisted = s.persisted) ∧
    (aliasStep fail s idx row).migrated = s.migrated := by
  intro fail s idx row e h1 h2 h3
  refine ⟨fun hd => ?_, fun hd => ?_, ?_⟩
  · simp [aliasStep, h1, h2, h3, hd]
  · simp [aliasStep, h1, h2, h3, hd]
  · rcases hd : strContains (lowerStr e) "duplicate" with - | - <;>
      simp [aliasStep, h1, h2, h3, hd]

/-- Witness for `C8`: a "DUPLICATE key" message is skipped silently; a
"boom" message counts one error; neither touches the migrated counter. -/
theorem claim_C8_witness :
    aliasStep (fun _ => some "DUPLICATE key value") ⟨7, 0, [], []⟩ 0
      ⟨some "a", some "b", none, none⟩ = ⟨7, 0, [], []⟩ ∧
    (aliasStep (fun _ => some "boom") ⟨7, 0, [], []⟩ 0
      ⟨some "a", some "b", none, none⟩).errors = 0 + 1 ∧
    (aliasStep (fun _ => some "boom") ⟨7, 0, [], []⟩ 0
      ⟨some "a", some "b", none, none⟩).migrated = 7 :=
  ⟨(claim_C8_duplicate_skip (fun _ => some "DUPLICATE key value") ⟨7, 0, [], []⟩ 0
      ⟨some "a", some "b", none, none⟩ "DUPLICATE key value" (by decide) (by decide) rfl).1
      (by decide),
   ((claim_C8_duplicate_skip (fun _ => some "boom") ⟨7, 0, [], []⟩ 0
      ⟨some "a", some "b", none, none⟩ "boom" (by decide) (by decide) rfl).2.1 (by decide)).1,
   (claim_C8_duplicate_skip (fun _ => some "boom") ⟨7, 0, [], []⟩ 0
      ⟨some "a", some "b", none, none⟩ "boom" (by decide) (by decide) rfl).2.2⟩

/-- `C10`: in every record the Migrator builds, an empty-string cell (like an
absent one) is coalesced away from non-identity fields: empty/missing entity
and status cells get the sentinels, and an empty string in any nullable field
is stored as null, never verbatim. -/
theorem claim_C10_empty_string_coalescing :
    ∀ (r : RuleRow) (a : AliasRow) (t : TxnSheetRow) (i j : Nat) (now date : String),
    ((r.currentEntity = some "" ∨ r.currentEntity = none) →
      (buildRuleData i now r).entity_default = "NEEDS REVIEW") ∧
    (r.originQBO = some "" → (buildRuleData i now r).origin_qb_account = none) ∧
    (r.openhaulQBO = some "" → (buildRuleData i now r).openhaul_qb_account = none) ∧
    (r.notes = some "" → (buildRuleData i now r).notes = none) ∧
    (a.source = some "" → (buildAliasData a).source = none) ∧
    (a.notes = some "" → (buildAliasData a).notes = none) ∧
    ((t.entity = some "" ∨ t.entity = none) →
      (buildTxnData j now t date).entity = "NEEDS REVIEW") ∧
    ((t.status = some "" ∨ t.status = none) → (buildTxnData j now t date).status = "⚠️") ∧
    (t.rawMerchant = some "" → (buildTxnData j now t date).raw_merchant = none) ∧
    (t.qbAccount = some "" → (buildTxnData j now t date).qb_account = none) ∧
    (t.accountUsed = some "" → (buildTxnData j now t date).source_account = none) ∧
    (t.cardNumber = some "" → (buildTxnData j now t date).card_number = none) ∧
    (t.notes = some "" → (buildTxnData j now t date).notes = none) := by
  intro r a t i j now date
  refine ⟨fun h => ?_, fun h => ?_, fun h => ?_, fun h => ?_, fun h => ?_, fun h => ?_,
    fun h => ?_, fun h => ?_, fun h => ?_, fun h => ?_, fun h => ?_, fun h => ?_, fun h => ?_⟩ <;>
    first
      | (rcases h with h | h <;> simp [buildRuleData, buildTxnData, pyOrDefault, h])
      | simp [buildRuleData, buildAliasData, buildTxnData, pyOrNone, pyOrDefault, h]

/-- Witness for `C10` at rows whose non-identity cells are all empty
strings. -/
theorem claim_C10_witness :
    (buildRuleData 2 "T" ⟨some "M", some "", some "", some "", some "", none⟩).entity_default =
      "NEEDS REVIEW" ∧
    (buildRuleData 2 "T" ⟨some "M", some "", some "", some "", some "", none⟩).notes = none ∧
    (buildAliasData ⟨some "a", some "b", some "", some ""⟩).source = none ∧
    (buildTxnData 3 "T" ⟨some "2024-01-05", some "", some "", some "", some "", some "",
      some "", some "", some "", some ""⟩ "2024-01-05").status = "⚠️" ∧
    (buildTxnData 3 "T" ⟨some "2024-01-05", some "", some "", some "", some "", some "",
      some "", some "", some "", some ""⟩ "2024-01-05").card_number = none :=
  ⟨(claim_C10_empty_string_coalescing ⟨some "M", some "", some "", some "", some "", none⟩
      ⟨some "a", some "b", some "", some ""⟩ ⟨some "2024-01-05", some "", some "", some "",
      some "", some "", some "", some "", some "", some ""⟩ 2 3 "T" "2024-01-05").1
      (Or.inl rfl),
   (claim_C10_empty_string_coalescing ⟨some "M", some "", some "", some "", some "", none⟩
      ⟨some "a", some "b", some "", some ""⟩ ⟨some "2024-01-05", some "", some "", some "",
      some "", some "", some "", some "", some "", some ""⟩ 2 3 "T" "2024-01-05").2.2.2.1 rfl,
   (claim_C10_empty_string_coalescing ⟨some "M", some "", some "", some "", some "", none⟩
      ⟨some "a", some "b", some "", some ""⟩ ⟨some "2024-01-05", some "", some "", some "",
      some "", some "", some "", some "", some "", some ""⟩ 2 3 "T" "2024-01-05").2.2.2.2.1 rfl,
   (claim_C10_empty_string_coalescing ⟨some "M", some "", some "", some "", some "", none⟩
      ⟨some "a", some "b", some "", some ""⟩ ⟨some "2024-01-05", some "", some "", some "",
      some "", some "", some "", some "", some "", some ""⟩ 2 3 "T" "2024-01-05").2.2.2.2.2.2.2.1
      (Or.inl rfl),
   (claim_C10_empty_string_coalescing ⟨some "M", some "", some "", some "", some "", none⟩
      ⟨some "a", some "b", some "", some ""⟩ ⟨some "2024-01-05", some "", some "", some "",
      some "", some "", some "", some "", some "", some ""⟩ 2 3 "T"
      "2024-01-05").2.2.2.2.2.2.2.2.2.2.2.1 rfl⟩

/-- `C9`: the row `{date:"03/14/2024", Amount:"-$50.00", Status:absent}` is
persisted by the Migrator as a record with date `"2024-03-14"`, amount
`-50.0`, default status `"⚠️"`, default entity `"NEEDS REVIEW"`, and a
non-null load-time `sheets_synced_at` — so its stored row is not Dirty and is
not selected for reverse sync. -/
theorem claim_C9_end_to_end_row :
    (migrate_transactions [c9row] "NOW" (fun _ => none)).persisted = [c9data] ∧
    c9data.date = "2024-03-14" ∧
    c9data.amount = -50.0 ∧
    c9data.status = "⚠️" ∧
    c9data.entity = "NEEDS REVIEW" ∧
    c9data.sheets_synced_at = "NOW" ∧
    (txnDataToRow 1 c9data).sheets_synced_at.isSome = true ∧
    selectDirty [txnDataToRow 1 c9data] = [] := by
  have hamt : c9data.amount = mkRat (-5000) 100 := by decide
  refine ⟨by decide, by decide, ?_, by decide, by decide, by decide, by decide, by decide⟩
  rw [hamt, Rat.mkRat_eq_div]
  norm_num

set_option maxRecDepth 100000

theorem enumFrom_append (n : Nat) (l1 l2 : List A) :
    enumFrom n (l1 ++ l2) = enumFrom n l1 ++ enumFrom (n + l1.length) l2 := by
  induction l1 generalizing n with
  | nil => simp [enumFrom]
  | cons x xs ih =>
    have h1 : enumFrom n ((x :: xs) ++ l2) = (n, x) :: enumFrom (n + 1) (xs ++ l2) := rfl
    have h2 : enumFrom n (x :: xs) = (n, x) :: enumFrom (n + 1) xs := rfl
    have h3 : n + 1 + xs.length = n + (x :: xs).length := by
      simp only [List.length_cons]
      omega
    rw [h1, h2, ih, h3, List.cons_append]

/-- `C7`: transactions are buffered in batches of 100; a failing batch insert
counts the whole batch as errors and migration continues. On 250 valid rows
with exactly the second batch insert failing, the migrated count is 150, the
error count is 100, the persisted rows are exactly those of the first batch
(sheet rows 2–101) and of the 50-row remainder batch (sheet rows 202–251),
and the one batch error message was printed. -/
theorem claim_C7_batch_failure_scenario :
    c7result.migrated = 150 ∧
    c7result.errors = 100 ∧
    c7result.persisted = (List.range' 2 100).map c7data ++ (List.range' 202 50).map c7data ∧
    c7result.printed = ["batch failed"] := by
  have e1 : (enumFrom 2 (List.replicate 100 c7row)).foldl
      (fun s p => txnStep "NOW" c7fail s p.1 p.2) ⟨0, 0, [], 0, [], []⟩ =
      ⟨100, 0, [], 1, (List.range' 2 100).map c7data, []⟩ := by decide
  have e2 : (enumFrom 102 (List.replicate 100 c7row)).foldl
      (fun s p => txnStep "NOW" c7fail s p.1 p.2)
      ⟨100, 0, [], 1, (List.range' 2 100).map c7data, []⟩ =
      ⟨100, 100, [], 2, (List.range' 2 100).map c7data, ["batch failed"]⟩ := by decide
  have e3 : (enumFrom 202 (List.replicate 50 c7row)).foldl
      (fun s p => txnStep "NOW" c7fail s p.1 p.2)
      ⟨100, 100, [], 2, (List.range' 2 100).map c7data, ["batch failed"]⟩ =
      ⟨100, 100, (List.range' 202 50).map c7data, 2, (List.range' 2 100).map c7data,
        ["batch failed"]⟩ := by decide
  have step250 : (enumFrom 2 (List.replicate 250 c7row)).foldl
      (fun s p => txnStep "NOW" c7fail s p.1 p.2) ⟨0, 0, [], 0, [], []⟩ =
      ⟨100, 100, (List.range' 202 50).map c7data, 2, (List.range' 2 100).map c7data,
        ["batch failed"]⟩ := by
    rw [(by norm_num : (250 : Nat) = 100 + (100 + 50)), List.replicate_add,
      List.replicate_add, enumFrom_append, enumFrom_append, List.foldl_append,
      List.foldl_append]
    simp only [List.length_replicate, Nat.reduceAdd]
    rw [e1, e2, e3]
  have hres : c7result =
      ⟨150, 100, [], 3,
        (List.range' 2 100).map c7data ++ (List.range' 202 50).map c7data,
        ["batch failed"]⟩ := by
    simp only [c7result, migrate_transactions]
    rw [step250]
    decide
  rw [hres]
  exact ⟨rfl, rfl, rfl, rfl⟩
